import Mathlib

/-! Shallow embedding of scan.py (pydigitize) and proofs about it.

The definitions below are translated from the source file scan.py of the
pydigitize repository: pure computations become Lean functions, the few
stateful parts (filesystem queries, subprocess calls, operator input)
become explicit parameters or event traces, and fallible code returns
Except values. Line numbers in comments refer to scan.py. -/

namespace Pydigitize

/-- Ways a run of scan.py can fail: a printed message followed by
sys.exit(code), a Python NameError on an unbound name, or an external
tool returning an unexpected exit code (the sh library raises then). -/
inductive PyErr where
  | sysExit : Nat → String → PyErr
  | nameError : String → PyErr
  | toolError : String → Int → PyErr
  deriving Repr, DecidableEq

/-- A Python value passed as the resolution argument: the CLI always passes
a string (args of docopt), but Scan can also be given an int directly. -/
inductive PyVal where
  | int : Int → PyVal
  | str : String → PyVal
  deriving Repr, DecidableEq

instance exceptDecEq {ε α : Type} [DecidableEq ε] [DecidableEq α] :
    DecidableEq (Except ε α) := fun
  | .error a, .error b =>
      if h : a = b then .isTrue (by rw [h])
      else .isFalse (fun he => h (Except.error.inj he))
  | .error _, .ok _ => .isFalse (fun he => Except.noConfusion he)
  | .ok _, .error _ => .isFalse (fun he => Except.noConfusion he)
  | .ok a, .ok b =>
      if h : a = b then .isTrue (by rw [h])
      else .isFalse (fun he => h (Except.ok.inj he))

/-- Whitespace stripped by Python int() before parsing. -/
def isPySpace (c : Char) : Bool := c = ' ' || c = '\t' || c = '\n' || c = '\r'

/-- Strip leading and trailing whitespace from a character list. -/
def stripChars (cs : List Char) : List Char :=
  ((cs.dropWhile isPySpace).reverse.dropWhile isPySpace).reverse

/-- Value of a list of decimal digit characters. -/
def digitsVal (cs : List Char) : Nat :=
  cs.foldl (fun a c => 10 * a + (c.toNat - 48)) 0

/-- Helper for pyIntOfString: a nonempty all-digit run, else None. -/
def pyIntDigits (cs : List Char) : Option Int :=
  if cs ≠ [] ∧ cs.all Char.isDigit then some (digitsVal cs) else none

/-- Python int() applied to a string, for the shapes of strings that occur
here: optional surrounding whitespace, an optional sign, then decimal
digits; anything else raises ValueError, modelled as none. -/
def pyIntOfString (s : String) : Option Int :=
  match stripChars s.data with
  | '-' :: rest => (pyIntDigits rest).map (fun v => -v)
  | '+' :: rest => pyIntDigits rest
  | cs => pyIntDigits cs

/-- Python int() on a value: ints pass through, strings are parsed. -/
def pyInt : PyVal → Option Int
  | .int n => some n
  | .str s => pyIntOfString s

/-- Line 67 of scan.py: VALID_RESOLUTIONS = (100, 200, 300, 400, 600). -/
def VALID_RESOLUTIONS : List Int := [100, 200, 300, 400, 600]

/-- The message printed by the local _invalid_res helper, lines 98-100:
the {!r} format of the VALID_RESOLUTIONS tuple. -/
def invalidResolutionMsg : String :=
  "Invalid resolution. Please use one of (100, 200, 300, 400, 600)."

/-- Lines 97-107 of Scan.__init__: int(resolution) must be in
VALID_RESOLUTIONS, else print the message and sys.exit(1); a ValueError
from int() takes the same path. On success the ORIGINAL value (not the
parsed int) is stored as self.resolution. -/
def validateResolution (resolution : PyVal) : Except PyErr PyVal :=
  match pyInt resolution with
  | none => .error (.sysExit 1 invalidResolutionMsg)
  | some r =>
      if r ∈ VALID_RESOLUTIONS then .ok resolution
      else .error (.sysExit 1 invalidResolutionMsg)

/-- Filesystem oracle: the set of paths for which os.path.isdir is true,
and the current working directory of the process (assumed absolute,
without a trailing slash). -/
structure FS where
  dirs : List String
  cwd : String
  deriving Repr, DecidableEq

/-- os.path.isdir under the oracle. -/
def FS.isdir (fs : FS) (p : String) : Bool := fs.dirs.contains p

/-- os.path.dirname for POSIX paths: everything before the last slash;
trailing slashes of the head are stripped unless the head is all slashes;
a path without a slash has dirname empty. -/
def dirname (p : String) : String :=
  let rev := p.data.reverse
  let headRev := rev.dropWhile (fun c => c ≠ '/')
  if headRev = [] then ""
  else
    let strippedRev := headRev.dropWhile (fun c => c = '/')
    if strippedRev = [] then String.mk headRev.reverse
    else String.mk strippedRev.reverse

/-- Whether pat occurs at the start of l. -/
def listStarts : List Char → List Char → Bool
  | [], _ => true
  | _ :: _, [] => false
  | p :: ps, c :: cs => p = c && listStarts ps cs

/-- Whether pat occurs anywhere inside l. -/
def listHasSub (pat : List Char) : List Char → Bool
  | [] => listStarts pat []
  | c :: cs => listStarts pat (c :: cs) || listHasSub pat cs

/-- Whether a path is absolute: it begins with a slash. -/
def isAbs (p : String) : Bool :=
  match p.data with
  | '/' :: _ => true
  | _ => false

/-- Whether a path ends with a slash. -/
def endsSlash (p : String) : Bool :=
  match p.data.reverse with
  | '/' :: _ => true
  | _ => false

/-- os.path.join for the two-argument uses in scan.py. -/
def pathJoin (a b : String) : String :=
  if isAbs b then b
  else if a = "" ∨ endsSlash a then a ++ b
  else a ++ "/" ++ b

/-- os.path.abspath for paths without dot segments or repeated slashes:
an absolute path is returned as is, a relative one is joined to the
current working directory. -/
def abspath (cwd p : String) : String :=
  if isAbs p then p else cwd ++ "/" ++ p

/-- Arguments of Scan.__init__ (lines 77-85). -/
structure InitArgs where
  resolution : PyVal
  device : Option String
  output : String
  name : Option String
  count : Option Int
  nowait : Bool
  deriving Repr, DecidableEq

/-- The attributes Scan.__init__ is documented to add (lines 86-96);
in the source no construction ever completes, see Scan.init below. -/
structure ScanState where
  resolution : PyVal
  device : Option String
  output_path : String
  count : Option Int
  nowait : Bool
  deriving Repr, DecidableEq

/-- The message of line 125: Output directory must already exist. -/
def outputDirMsg (output : String) : String :=
  "Output directory \x22" ++ output ++ "\x22 must already exist."

/-- Lines 116-127 of Scan.__init__, the output-path resolution block
(unreachable in the source, because line 113 raises first, see Scan.init):
if the output is an existing directory, a filename is joined to it - with
no name the code reads the name timestamp, which is unbound (line 113
assigned to the different name Timestamp), raising NameError; otherwise a
path whose dirname is empty or an existing directory is accepted and made
absolute; otherwise print a message and sys.exit(1). -/
def resolveOutputPath (fs : FS) (output : String) (name : Option String) :
    Except PyErr String :=
  if fs.isdir output then
    match name with
    | none => .error (.nameError "timestamp")
    | some n => .ok (abspath fs.cwd (pathJoin output n))
  else if dirname output = "" ∨ fs.isdir (dirname output) then
    .ok (abspath fs.cwd output)
  else
    .error (.sysExit 1 (outputDirMsg output))

/-- Scan.__init__, lines 77-132. After the resolution is validated and
stored (lines 97-107) and the device stored (line 110), line 113 evaluates
START_TIME.strftime - but the name START_TIME is bound nowhere in scan.py
(it is only read, at lines 71 and 113), so every construction raises
NameError on START_TIME before reaching the output-path block. -/
def Scan.init (fs : FS) (a : InitArgs) : Except PyErr ScanState :=
  match validateResolution a.resolution with
  | .error e => .error e
  | .ok _stored => .error (.nameError "START_TIME")

/-- Whether the temporary working directory is created for a given
construction: prepare_directories (line 144, the only mkdtemp of the
working directory) runs inside process(), which main only reaches after
Scan construction succeeds - so it runs exactly when init returns ok. -/
def workdirCreated (fs : FS) (a : InitArgs) : Bool :=
  match Scan.init fs a with
  | .error _ => false
  | .ok _ => true

/-! Lexicographic string order, as Python compares str values: code point
by code point. Defined on character lists so that the kernel can evaluate
it on concrete strings. -/

/-- Strict lexicographic order on character lists by code point. -/
def lexLt : List Char → List Char → Bool
  | [], [] => false
  | [], _ :: _ => true
  | _ :: _, [] => false
  | a :: as, b :: bs =>
      if a.toNat < b.toNat then true
      else if b.toNat < a.toNat then false
      else lexLt as bs

/-- Python string comparison s < t. -/
def strLt (s t : String) : Bool := lexLt s.data t.data

/-- Python string comparison s ≤ t (total order, so the negation of t < s). -/
def strLe (s t : String) : Bool := !(strLt t s)

/-- Insert into a sorted list of strings, keeping ascending order. -/
def insertStr (x : String) : List String → List String
  | [] => [x]
  | y :: ys => if strLe x y then x :: y :: ys else y :: insertStr x ys

/-- Python sorted() on a list of strings: ascending insertion sort. -/
def sortStrings (l : List String) : List String := l.foldr insertStr []

/-! Page acquisition (Scan.scan_pages, lines 146-184). -/

/-- The filename scanimage writes for batch index i: the batch template of
line 157 is out%d.tif, so the invocation whose batch-start is i and whose
batch-count is 1 writes exactly out{i}.tif (braces meaning substitution). -/
def batchFilename (i : Int) : String := "out" ++ toString i ++ ".tif"

/-- The per-page files produced by counted acquisition of n pages: for
page number j+1 the code calls _scan_page(j), which overrides the default
batch-start of 1000 with the 0-based index j (line 166), so the files are
out0.tif, out1.tif, and so on. -/
def countedPageFiles (n : Nat) : List String :=
  (List.range n).map (fun j => batchFilename j)

/-- Observable events of scan_pages: a scanimage invocation with its
batch-start and batch-count arguments, or the blocking input() prompt
asking the operator to confirm scanning page k. -/
inductive Ev where
  | scanned : Int → Option Nat → Ev
  | prompted : Nat → Ev
  deriving Repr, DecidableEq

/-- The operator reaction to one blocking prompt: press ENTER, or deliver
a KeyboardInterrupt. -/
inductive Resp where
  | enter
  | interrupt
  deriving Repr, DecidableEq

/-- The message printed when a KeyboardInterrupt arrives during the
prompt, before sys.exit(1) (line 181). -/
def abortMsg : String := "Aborting."

/-- True for the prompt events of a trace. -/
def isPromptEv : Ev → Bool
  | .prompted _ => true
  | .scanned _ _ => false

/-- Number of blocking prompts in a trace. -/
def promptCount (l : List Ev) : Nat := l.countP isPromptEv

/-- The counted loop of lines 173-182 as the source executes it: every
iteration starts with _scan_page(i), whose first statement (the print of
line 154) evaluates prefix(), and prefix() reads the unbound module name
START_TIME (line 71) - so the first iteration, when the range is
nonempty, raises NameError with no scanimage invocation and no prompt;
an empty range just falls through. The fuel argument is the number of
iterations of range(count). -/
def scanPagesGo (fuel : Nat) : List Ev × Except PyErr Unit :=
  match fuel with
  | 0 => ([], .ok ())
  | _ + 1 => ([], .error (.nameError "START_TIME"))

/-- Scan.scan_pages, lines 146-184, as the source executes it: a falsy
count (None or 0) takes the batch branch, whose _scan_page(None) raises
NameError on the unbound START_TIME at line 152 before scanimage runs; a
truthy count iterates range(count), the first iteration (if any) raising
the same NameError at line 154. No scanimage invocation and no prompt
ever happens; only a negative (empty-range) count returns normally. -/
def scanPagesRun (count : Option Int) (nowait : Bool) (r : Nat → Resp) :
    List Ev × Except PyErr Unit :=
  match count with
  | some c =>
      if c = 0 then ([], .error (.nameError "START_TIME"))
      else scanPagesGo c.toNat
  | none => ([], .error (.nameError "START_TIME"))

/-- The counted loop of lines 172-182 as it would execute were START_TIME
bound, the prefix() prints then being harmless - unreachable behavior in
the source, kept to state what the loop conditions themselves prescribe:
on iteration i the page is scanned (scanimage with batch-start i,
batch-count 1); then, when nowait is false and i < count - 1, input()
blocks asking to scan page i+2; a KeyboardInterrupt there prints
Aborting. and exits with code 1. The fuel argument is the number of
remaining iterations of range(count) and r gives the operator response at
each page index. -/
def scanPagesGoIntended (c : Int) (nowait : Bool) (r : Nat → Resp) :
    Nat → Nat → List Ev × Except PyErr Unit
  | _, 0 => ([], .ok ())
  | i, fuel + 1 =>
      let ev : Ev := .scanned (i : Int) (some 1)
      if nowait = false ∧ (i : Int) < c - 1 then
        match r i with
        | .interrupt => ([ev, .prompted (i + 2)], .error (.sysExit 1 abortMsg))
        | .enter =>
            let rest := scanPagesGoIntended c nowait r (i + 1) fuel
            (ev :: .prompted (i + 2) :: rest.1, rest.2)
      else
        let rest := scanPagesGoIntended c nowait r (i + 1) fuel
        (ev :: rest.1, rest.2)

/-- Scan.scan_pages as it would execute were START_TIME bound
(unreachable in the source): a truthy count runs the counted loop over
range(count); a falsy count (None or 0) runs a single batch invocation
whose batch-start keeps the default 1000 and which has no batch-count
limit. -/
def scanPagesRunIntended (count : Option Int) (nowait : Bool)
    (r : Nat → Resp) : List Ev × Except PyErr Unit :=
  match count with
  | some c =>
      if c = 0 then ([Ev.scanned 1000 none], .ok ())
      else scanPagesGoIntended c nowait r 0 c.toNat
  | none => ([Ev.scanned 1000 none], .ok ())

/-! Page count parsing in the main block, lines 276-284. -/

/-- The docopt default string for the -c option. -/
def countSentinel : String := "all pages from ADF"

/-- The message of line 283, where %r wraps the argument in quotes. -/
def invalidCountMsg (s : String) : String :=
  "Invalid argument to \x22-c\x22: \x27" ++ s ++ "\x27 -> must be numeric!"

/-- Lines 276-284: an empty -c value is falsy, so no count is set; the
docopt default sentinel maps to None; any other value goes through int(),
a ValueError printing a message and exiting with code 1. No sign or
positivity check happens: any integer the parse accepts is kept. -/
def parseCountArg (s : String) : Except PyErr (Option Int) :=
  if s = "" then .ok none
  else if s = countSentinel then .ok none
  else
    match pyIntOfString s with
    | some n => .ok (some n)
    | none => .error (.sysExit 1 (invalidCountMsg s))

/-! Page assembly (Scan.combine_tiffs, lines 186-193). -/

/-- Whether a filename matches the glob pattern out*.tif of line 191:
it begins with out and, after those three characters, ends in .tif. -/
def globOutTif (s : String) : Bool :=
  listStarts "out".data s.data &&
    listStarts ".tif".data.reverse (s.data.drop 3).reverse

/-- One tiffcp invocation: the option flags and the file operands
(input files in order, then the output file). -/
structure TiffcpCall where
  flags : List String
  operands : List String
  deriving Repr, DecidableEq

/-- The tiffcp invocation combine_tiffs builds from the working-directory
listing, lines 190-193: the files matching out*.tif, sorted ascending,
then output.tif, with lzw compression (c=lzw). -/
def tiffcpCallOf (listing : List String) : TiffcpCall :=
  { flags := ["-c", "lzw"],
    operands := sortStrings (listing.filter globOutTif) ++ ["output.tif"] }

/-- Scan.combine_tiffs, lines 186-193, as the source executes it: its
first statement (the print of line 190) evaluates prefix(), which reads
the unbound module name START_TIME, so the method raises NameError before
the glob of line 191, the sort, or the tiffcp invocation ever run. -/
def combine_tiffs (listing : List String) (exitOf : TiffcpCall → Int) :
    Except PyErr TiffcpCall :=
  .error (.nameError "START_TIME")

/-- Lines 191-193 of combine_tiffs as they would execute were START_TIME
bound (unreachable in the source): glob out*.tif, sort ascending, invoke
tiffcp with lzw compression and output.tif, the external tool modelled by
an exit-code oracle - the sh library raises (uncaught, so fatal) whenever
tiffcp returns a nonzero code. -/
def combineTiffsIntended (listing : List String)
    (exitOf : TiffcpCall → Int) : Except PyErr TiffcpCall :=
  let call := tiffcpCallOf listing
  if exitOf call = 0 then .ok call
  else .error (.toolError "tiffcp" (exitOf call))

/-! Document finishing (Scan.shrink_pdf lines 205-217 and Scan.process
lines 219-245). -/

/-- The gs argument list built into the local gs_args on lines 210-216:
its input operand is clean.pdf and its sOutputFile names output.pdf.
The list is built and then never used, see shrinkArgv. -/
def shrink_gs_args : List String :=
  ["q", "dNOPAUSE", "dBATCH", "dSAFER", "sDEVICE=pdfwrite",
   "dCompatibilityLevel=1.3", "dPDFSETTINGS=/screen",
   "dEmbedAllFonts=true", "dSubsetFonts=true",
   "dColorImageDownsampleType=/Bicubic", "dColorImageResolution=185",
   "dGrayImageDownsampleType=/Bicubic", "dGrayImageResolution=185",
   "dMonoImageDownsampleType=/Bicubic", "dMonoImageResolution=185",
   "sOutputFile=output.pdf", "clean.pdf"]

/-- The keys of the module-level docopt dictionary (from the usage text,
lines 4-31): when scan.py runs as a script this dictionary is the value
of the global name args. -/
def docoptArgKeys : List String :=
  ["--help", "--version", "-n", "-d", "-r", "-c",
   "--no-shrink", "--nowait", "--verbose", "--debug", "OUTPUT"]

/-- The argument list actually passed to gs by shrink_pdf: line 217 reads
gs(*args), and the name args is not local to the method, so it resolves to
the module-level docopt dictionary, whose iteration yields its keys - not
the gs_args list built just above it. -/
def shrinkArgv : List String := docoptArgKeys

/-- The output files a gs invocation writes: exactly those named by its
sOutputFile= arguments (external tool contract). -/
def gsOutputFiles (argv : List String) : List String :=
  argv.filterMap
    (fun a =>
      if listStarts "sOutputFile=".data a.data then
        some (String.mk (a.data.drop 12))
      else none)

/-- Lines 233-238 of Scan.process: the intermediate filename that is moved
to the output path is clean.pdf when the shrink step ran (no_shrink false)
and output.pdf otherwise. -/
def processMoveSource (no_shrink : Bool) : String :=
  if no_shrink = false then "clean.pdf" else "output.pdf"

/-- The files present in the working directory after the process() steps
for a counted scan of n pages: the per-page tiffs, output.tif written by
combine_tiffs, output.pdf written by tiff2pdf (line 203), and - when the
shrink step runs - whatever files its gs invocation writes. -/
def workdirFilesAfter (n : Nat) (no_shrink : Bool) : List String :=
  countedPageFiles n ++ ["output.tif", "output.pdf"] ++
    (if no_shrink = false then gsOutputFiles shrinkArgv else [])

/-! Startup dependency checks, lines 45-61, and their position before any
directory creation (line 259 and prepare_directories). -/

/-- Message of lines 47-48. -/
def msgSane : String :=
  "Error: scanimage command not found. Please install sane."

/-- Message of lines 53-54. -/
def msgLibtiff : String :=
  "Error: tiffcp / tiff2pdf commands not found. Please install libtiff."

/-- Message of lines 59-60. -/
def msgGs : String :=
  "Error: gs commands not found. Please install ghostscript."

/-- The import-time dependency checks of lines 45-61, given which external
commands are available: from sh import raises ImportError for an absent
command, each try block printing its message and calling sys.exit(1).
The tiffcp and tiff2pdf imports share one block. -/
def importChecks (scanimageOk tiffcpOk tiff2pdfOk gsOk : Bool) :
    Except PyErr Unit :=
  if scanimageOk = false then .error (.sysExit 1 msgSane)
  else if tiffcpOk = false ∨ tiff2pdfOk = false then
    .error (.sysExit 1 msgLibtiff)
  else if gsOk = false then .error (.sysExit 1 msgGs)
  else .ok ()

/-- The message the failing import check prints, by the cascade order of
the three try blocks. -/
def importFailMsg (scanimageOk tiffcpOk tiff2pdfOk : Bool) : String :=
  if scanimageOk = false then msgSane
  else if tiffcpOk = false ∨ tiff2pdfOk = false then msgLibtiff
  else msgGs

/-- The first missing tool in the order the import checks test them. -/
def firstMissingTool (scanimageOk tiffcpOk tiff2pdfOk : Bool) : String :=
  if scanimageOk = false then "scanimage"
  else if tiffcpOk = false then "tiffcp"
  else if tiff2pdfOk = false then "tiff2pdf"
  else "gs"

/-- Number of temporary directories the program has created by the time
startup finishes: the import checks (lines 45-61) run before the mkdtemp
of line 259 and long before prepare_directories, so a failing check means
zero directories were created. -/
def startupDirsCreated (scanimageOk tiffcpOk tiff2pdfOk gsOk : Bool) : Nat :=
  match importChecks scanimageOk tiffcpOk tiff2pdfOk gsOk with
  | .error _ => 0
  | .ok _ => 1

/-- Whether a message mentions a tool name as a substring. -/
def mentions (msg tool : String) : Bool := listHasSub tool.data msg.data

/-! Supporting lemmas about the lexicographic order and sortStrings. -/

theorem lexLt_asymm : ∀ a b : List Char, lexLt a b = true → lexLt b a = false
  | [], [] => by simp [lexLt]
  | [], _ :: _ => by simp [lexLt]
  | _ :: _, [] => by simp [lexLt]
  | a :: as, b :: bs => by
      simp only [lexLt]
      by_cases h1 : a.toNat < b.toNat
      · intro _
        have h2 : ¬ b.toNat < a.toNat := by omega
        simp [h1, h2]
      · by_cases h2 : b.toNat < a.toNat
        · simp [h1, h2]
        · intro h
          simp only [if_neg h1, if_neg h2] at h
          simp [h1, h2, lexLt_asymm as bs h]

theorem lexNotLt_trans :
    ∀ a b c : List Char,
      lexLt a b = false → lexLt b c = false → lexLt a c = false
  | [], [], c => by intro _ h2; exact h2
  | [], _ :: _, _ => by simp [lexLt]
  | _ :: _, [], [] => by intro _ _; simp [lexLt]
  | _ :: _, [], _ :: _ => by simp [lexLt]
  | _ :: _, _ :: _, [] => by intro _ _; simp [lexLt]
  | a :: as, b :: bs, c :: cs => by
      simp only [lexLt]
      intro h1 h2
      by_cases hab : a.toNat < b.toNat
      · simp [hab] at h1
      · by_cases hbc : b.toNat < c.toNat
        · simp [hbc] at h2
        · by_cases hac : a.toNat < c.toNat
          · omega
          · by_cases hca : c.toNat < a.toNat
            · simp [hac, hca]
            · have hba : ¬ b.toNat < a.toNat := by omega
              have hcb : ¬ c.toNat < b.toNat := by omega
              simp only [if_neg hab, if_neg hba] at h1
              simp only [if_neg hbc, if_neg hcb] at h2
              simp [hac, hca, lexNotLt_trans as bs cs h1 h2]

theorem strLe_total (x y : String) (h : strLe x y = false) : strLe y x = true := by
  simp only [strLe, Bool.not_eq_false'] at h
  simp only [strLe, strLt, Bool.not_eq_true']
  exact lexLt_asymm y.data x.data h

theorem strLe_trans (a b c : String) (h1 : strLe a b = true)
    (h2 : strLe b c = true) : strLe a c = true := by
  simp only [strLe, strLt, Bool.not_eq_true'] at h1 h2 ⊢
  exact lexNotLt_trans c.data b.data a.data h2 h1

theorem perm_insertStr (x : String) :
    ∀ l : List String, List.Perm (insertStr x l) (x :: l)
  | [] => List.Perm.refl _
  | y :: ys => by
      simp only [insertStr]
      by_cases h : strLe x y = true
      · simp [h]
      · simp only [Bool.not_eq_true] at h
        simp only [h, Bool.false_eq_true, if_false]
        exact ((perm_insertStr x ys).cons y).trans (List.Perm.swap x y ys)

theorem perm_sortStrings :
    ∀ l : List String, List.Perm (sortStrings l) l
  | [] => List.Perm.refl _
  | x :: xs => by
      show List.Perm (insertStr x (sortStrings xs)) (x :: xs)
      exact (perm_insertStr x (sortStrings xs)).trans
        ((perm_sortStrings xs).cons x)

theorem pairwise_insertStr (x : String) :
    ∀ l : List String, List.Pairwise (fun a b => strLe a b = true) l →
      List.Pairwise (fun a b => strLe a b = true) (insertStr x l)
  | [], _ => by simp [insertStr]
  | y :: ys, h => by
      rw [List.pairwise_cons] at h
      simp only [insertStr]
      by_cases hxy : strLe x y = true
      · simp only [hxy, if_true]
        rw [List.pairwise_cons]
        refine ⟨?_, List.pairwise_cons.mpr h⟩
        intro z hz
        rcases List.mem_cons.mp hz with hz | hz
        · rw [hz]; exact hxy
        · exact strLe_trans x y z hxy (h.1 z hz)
      · simp only [Bool.not_eq_true] at hxy
        simp only [hxy, Bool.false_eq_true, if_false]
        rw [List.pairwise_cons]
        refine ⟨?_, pairwise_insertStr x ys h.2⟩
        intro z hz
        have hz2 : z ∈ x :: ys := (perm_insertStr x ys).mem_iff.mp hz
        rcases List.mem_cons.mp hz2 with hz2 | hz2
        · rw [hz2]; exact strLe_total x y hxy
        · exact h.1 z hz2

theorem sorted_sortStrings :
    ∀ l : List String,
      List.Pairwise (fun a b => strLe a b = true) (sortStrings l)
  | [] => List.Pairwise.nil
  | x :: xs =>
      pairwise_insertStr x (sortStrings xs) (sorted_sortStrings xs)

/-! Supporting lemmas about the counted scan loop. -/

/-- The trace the counted loop produces when the operator confirms every
prompt: each remaining page index yields its scanimage invocation and,
before the last page, the confirmation prompt for the next page. -/
def enterTrace (c : Int) : Nat → Nat → List Ev
  | _, 0 => []
  | i, fuel + 1 =>
      Ev.scanned (i : Int) (some 1) ::
        (if (i : Int) < c - 1 then
          Ev.prompted (i + 2) :: enterTrace c (i + 1) fuel
         else enterTrace c (i + 1) fuel)

/-- The trace of a run interrupted at a prompt: m scanned pages starting
at index i, each followed by its prompt, the last prompt being the one the
KeyboardInterrupt arrives at. -/
def promptedPairs : Nat → Nat → List Ev
  | _, 0 => []
  | i, m + 1 =>
      Ev.scanned (i : Int) (some 1) :: Ev.prompted (i + 2) ::
        promptedPairs (i + 1) m

theorem scanGo_allEnter (c : Int) (r : Nat → Resp)
    (hr : ∀ j, r j = Resp.enter) :
    ∀ fuel i, scanPagesGoIntended c false r i fuel =
      (enterTrace c i fuel, .ok ()) := by
  intro fuel
  induction fuel with
  | zero => intro i; simp [scanPagesGoIntended, enterTrace]
  | succ fuel ih =>
      intro i
      by_cases h : (i : Int) < c - 1
      · simp [scanPagesGoIntended, enterTrace, h, hr i, ih (i + 1)]
      · simp [scanPagesGoIntended, enterTrace, h, ih (i + 1)]

theorem promptCount_enterTrace (c : Int) :
    ∀ (fuel i : Nat), (i : Int) + fuel = c →
      promptCount (enterTrace c i fuel) = fuel - 1 := by
  intro fuel
  induction fuel with
  | zero => intro i _; simp [enterTrace, promptCount]
  | succ fuel ih =>
      intro i hic
      by_cases h : (i : Int) < c - 1
      · have hfuel : 1 ≤ fuel := by omega
        have hrec := ih (i + 1) (by push_cast; omega)
        simp [enterTrace, if_pos h, promptCount, List.countP_cons,
          isPromptEv] at hrec ⊢
        omega
      · have hfuel : fuel = 0 := by omega
        subst hfuel
        simp [enterTrace, if_neg h, promptCount, isPromptEv]

theorem prompted_mem_enterTrace_le (c : Int) :
    ∀ (fuel i m : Nat), Ev.prompted m ∈ enterTrace c i fuel → (m : Int) ≤ c := by
  intro fuel
  induction fuel with
  | zero => intro i m hm; simp [enterTrace] at hm
  | succ fuel ih =>
      intro i m hm
      by_cases h : (i : Int) < c - 1
      · simp only [enterTrace, if_pos h, List.mem_cons] at hm
        rcases hm with hm | hm | hm
        · exact absurd hm (by simp)
        · have : m = i + 2 := Ev.prompted.inj hm
          omega
        · exact ih (i + 1) m hm
      · simp only [enterTrace, if_neg h, List.mem_cons] at hm
        rcases hm with hm | hm
        · exact absurd hm (by simp)
        · exact ih (i + 1) m hm

theorem prompted_mem_enterTrace_of (c : Int) :
    ∀ (fuel i j : Nat), i ≤ j → j < i + fuel → (j : Int) < c - 1 →
      Ev.prompted (j + 2) ∈ enterTrace c i fuel := by
  intro fuel
  induction fuel with
  | zero => intro i j h1 h2 _; omega
  | succ fuel ih =>
      intro i j h1 h2 h3
      by_cases hij : i = j
      · subst hij
        simp [enterTrace, if_pos h3]
      · have hlt : i < j := by omega
        have hrec := ih (i + 1) j (by omega) (by omega) h3
        by_cases h : (i : Int) < c - 1
        · simp only [enterTrace, if_pos h, List.mem_cons]
          exact Or.inr (Or.inr hrec)
        · simp only [enterTrace, if_neg h, List.mem_cons]
          exact Or.inr hrec

theorem scanGo_interrupt (c : Int) (r : Nat → Resp) (k : Nat)
    (hfirst : ∀ j, j < k → r j = Resp.enter) (hk : r k = Resp.interrupt)
    (hkc : (k : Int) + 1 < c) :
    ∀ (fuel i : Nat), (i : Int) + fuel = c → i ≤ k →
      scanPagesGoIntended c false r i fuel =
        (promptedPairs i (k + 1 - i), .error (.sysExit 1 abortMsg)) := by
  intro fuel
  induction fuel with
  | zero => intro i h1 h2; omega
  | succ fuel ih =>
      intro i h1 h2
      have hcond : (i : Int) < c - 1 := by omega
      by_cases hik : i = k
      · have hki : r i = Resp.interrupt := by rw [hik]; exact hk
        have hone : k + 1 - i = 1 := by omega
        simp [scanPagesGoIntended, hcond, hki, hone, promptedPairs]
      · have hlt : i < k := by omega
        have hrec := ih (i + 1) (by push_cast; omega) (by omega)
        have hsplit : k + 1 - i = (k - i) + 1 := by omega
        have hsub : k + 1 - (i + 1) = k - i := by omega
        rw [hsub] at hrec
        simp [scanPagesGoIntended, hcond, hfirst i hlt, hrec, hsplit,
          promptedPairs]

/-- The source counted loop errors as soon as it has one iteration: the
first _scan_page call raises NameError on START_TIME. -/
theorem scanGo_pos (fuel : Nat) (hf : 1 ≤ fuel) :
    scanPagesGo fuel = ([], .error (.nameError "START_TIME")) := by
  cases fuel with
  | zero => omega
  | succ m => rfl

/-! The claims. -/

/-- C1: the claim states that for every resolution in the allow-list
{100, 200, 300, 400, 600} constructing a Scan session succeeds with the
input value stored as the resolution. In the source the resolution check
does pass and would store the input value unchanged, but line 113 of
Scan.__init__ then evaluates START_TIME, a name bound nowhere in scan.py,
so every construction raises NameError instead of succeeding. -/
theorem c1_valid_resolution_construction_raises (fs : FS) (a : InitArgs)
    (r : Int) (hres : pyInt a.resolution = some r)
    (hr : r ∈ VALID_RESOLUTIONS) :
    validateResolution a.resolution = .ok a.resolution ∧
    Scan.init fs a = .error (.nameError "START_TIME") := by
  have hv : validateResolution a.resolution = .ok a.resolution := by
    simp [validateResolution, hres, hr]
  exact ⟨hv, by simp [Scan.init, hv]⟩

/-- Witness for C1 at resolution 300 (as the CLI string) and an existing
output directory. -/
theorem c1_witness :
    validateResolution (PyVal.str "300") = .ok (PyVal.str "300") ∧
    Scan.init ⟨["inbox"], "/home/u"⟩
        ⟨PyVal.str "300", none, "inbox", none, none, false⟩ =
      .error (.nameError "START_TIME") :=
  c1_valid_resolution_construction_raises ⟨["inbox"], "/home/u"⟩
    ⟨PyVal.str "300", none, "inbox", none, none, false⟩ 300
    (by decide) (by decide)

/-- C2: the claim states that counted acquisition filenames sort lexically
in strict acquisition order up to at least 11 pages. In the source the
counted path overrides batch-start with the 0-based page index (line 166),
defeating the 1000 offset whose very comment (line 158) says it avoids
out10 sorting before out2: for 11 pages the files are out0.tif .. out10.tif,
the file of page 11 sorts before the file of page 3, the filename list is
not in ascending order, and sorting it (as combine_tiffs does) changes the
order. -/
theorem c2_counted_filenames_not_in_order :
    countedPageFiles 11 =
      ["out0.tif", "out1.tif", "out2.tif", "out3.tif", "out4.tif",
       "out5.tif", "out6.tif", "out7.tif", "out8.tif", "out9.tif",
       "out10.tif"] ∧
    strLt (batchFilename 10) (batchFilename 2) = true ∧
    ¬ List.Pairwise (fun a b => strLt a b = true) (countedPageFiles 11) ∧
    sortStrings (countedPageFiles 11) ≠ countedPageFiles 11 := by
  refine ⟨by decide, by decide, by decide, by decide⟩

/-- C3: the claim states that with shrink enabled the converted PDF is
recompressed into a distinct shrunk file which is then moved. In the
source shrink_pdf builds gs_args (input clean.pdf, sOutputFile=output.pdf)
but line 217 invokes gs with the unrelated module-level docopt dictionary,
whose arguments name no sOutputFile at all, so no clean.pdf is ever
produced - yet process() moves clean.pdf when shrink ran. With shrink
disabled the moved file output.pdf does exist. -/
theorem c3_shrink_moves_missing_file :
    shrinkArgv ≠ shrink_gs_args ∧
    gsOutputFiles shrink_gs_args = ["output.pdf"] ∧
    gsOutputFiles shrinkArgv = [] ∧
    processMoveSource false = "clean.pdf" ∧
    processMoveSource false ∉ workdirFilesAfter 3 false ∧
    processMoveSource true = "output.pdf" ∧
    processMoveSource true ∈ workdirFilesAfter 3 true := by
  refine ⟨by decide, by decide, by decide, by decide, by decide, by decide,
    by decide⟩

/-- C4: the claim states that for an existing-directory output with no
name fragment the derived filename is a deterministic function of the
start timestamp ending in .pdf. In the source no filename is ever derived:
construction raises NameError on START_TIME at line 113, and even the
directory branch itself (lines 117-118) reads the unbound lowercase name
timestamp, line 113 having assigned to the different name Timestamp. -/
theorem c4_dir_output_filename_never_derived (fs : FS) (a : InitArgs)
    (r : Int) (hres : pyInt a.resolution = some r)
    (hr : r ∈ VALID_RESOLUTIONS)
    (hdir : fs.isdir a.output = true) (hname : a.name = none) :
    Scan.init fs a = .error (.nameError "START_TIME") ∧
    resolveOutputPath fs a.output a.name = .error (.nameError "timestamp") := by
  constructor
  · have hv : validateResolution a.resolution = .ok a.resolution := by
      simp [validateResolution, hres, hr]
    simp [Scan.init, hv]
  · simp [resolveOutputPath, hdir, hname]

/-- Witness for C4: an existing directory as output, no name, resolution
300. -/
theorem c4_witness :
    Scan.init ⟨["inbox"], "/home/u"⟩
        ⟨PyVal.str "300", none, "inbox", none, none, false⟩ =
      .error (.nameError "START_TIME") ∧
    resolveOutputPath ⟨["inbox"], "/home/u"⟩ "inbox" none =
      .error (.nameError "timestamp") :=
  c4_dir_output_filename_never_derived ⟨["inbox"], "/home/u"⟩
    ⟨PyVal.str "300", none, "inbox", none, none, false⟩ 300
    (by decide) (by decide) (by decide) rfl

/-- C5 counterexample: the claim states that a present page-count value
that is not a positive integer fails with a configuration error before
scanning. The values 0 and -3 parse fine: the parse step of lines
276-284, the only place the claimed configuration error could arise for
the page count, accepts them with no error. What follows is no
configuration error either: a zero (falsy) count takes the batch branch
of scan_pages, which raises NameError on the unbound START_TIME, and a
negative count runs an empty loop and returns with no error at all. -/
theorem c5_zero_count_not_rejected :
    parseCountArg "0" = .ok (some 0) ∧
    parseCountArg "-3" = .ok (some (-3)) ∧
    scanPagesRun (some 0) false (fun _ => Resp.enter) =
      ([], .error (.nameError "START_TIME")) ∧
    scanPagesRun (some (-3)) false (fun _ => Resp.enter) = ([], .ok ()) := by
  refine ⟨by decide, by decide, by decide, by decide⟩

/-- C5 amended: an absent, empty or sentinel page-count leaves the count
unset; a present value must parse as a Python integer, a non-numeric
value failing with the configuration error before scanning; but no
positivity check exists: zero and negative integers are accepted by the
parse. The scan step then never reaches the backend - an unset or zero
(falsy) count takes the batch branch, which raises NameError on the
unbound START_TIME before invoking scanimage, a positive count fails the
same way at its first page, and a negative count runs an empty loop,
returning without error and without scanning. -/
theorem c5_count_parsing_amended (s : String) (n : Int) (w : Bool)
    (r : Nat → Resp) :
    parseCountArg "" = .ok none ∧
    parseCountArg countSentinel = .ok none ∧
    (s ≠ "" → s ≠ countSentinel → pyIntOfString s = some n →
      parseCountArg s = .ok (some n)) ∧
    (s ≠ "" → s ≠ countSentinel → pyIntOfString s = none →
      parseCountArg s = .error (.sysExit 1 (invalidCountMsg s))) ∧
    scanPagesRun none w r = ([], .error (.nameError "START_TIME")) ∧
    scanPagesRun (some 0) w r = ([], .error (.nameError "START_TIME")) ∧
    (n < 0 → scanPagesRun (some n) w r = ([], .ok ())) ∧
    (0 < n → scanPagesRun (some n) w r =
      ([], .error (.nameError "START_TIME"))) := by
  refine ⟨by decide, by decide, ?_, ?_, rfl, by simp [scanPagesRun], ?_, ?_⟩
  · intro h1 h2 h3
    simp [parseCountArg, h1, h2, h3]
  · intro h1 h2 h3
    simp [parseCountArg, h1, h2, h3]
  · intro hneg
    have hz : n ≠ 0 := by omega
    have ht : n.toNat = 0 := Int.toNat_of_nonpos (by omega)
    simp [scanPagesRun, hz, ht, scanPagesGo]
  · intro hpos
    have hz : n ≠ 0 := by omega
    simp only [scanPagesRun, if_neg hz]
    exact scanGo_pos n.toNat (by omega)

/-- Witness for C5: the non-numeric value abc is rejected with the
configuration error, a negative count returns with no scan and no error,
and a positive count hits the NameError before any scan. -/
theorem c5_witness :
    parseCountArg "abc" = .error (.sysExit 1 (invalidCountMsg "abc")) ∧
    scanPagesRun (some (-3)) false (fun _ => Resp.enter) = ([], .ok ()) ∧
    scanPagesRun (some 2) false (fun _ => Resp.enter) =
      ([], .error (.nameError "START_TIME")) := by
  have h := c5_count_parsing_amended "abc" (-3) false (fun _ => Resp.enter)
  have h2 := c5_count_parsing_amended "abc" 2 false (fun _ => Resp.enter)
  exact ⟨h.2.2.2.1 (by decide) (by decide) (by decide),
    h.2.2.2.2.2.2.1 (by decide), h2.2.2.2.2.2.2.2 (by decide)⟩

/-- C6: the claim states that any resolution outside the allow-list makes
session construction fail with the configuration error, exit code 1, and
that no working directory is created. Lines 97-107 print the message and
call sys.exit(1) for any value whose int() is not in VALID_RESOLUTIONS or
whose int() raises ValueError, and prepare_directories (the only creation
of the working directory) is only reached after a successful
construction. -/
theorem c6_invalid_resolution_rejected (fs : FS) (a : InitArgs)
    (h : ∀ r : Int, pyInt a.resolution = some r → r ∉ VALID_RESOLUTIONS) :
    Scan.init fs a = .error (.sysExit 1 invalidResolutionMsg) ∧
    workdirCreated fs a = false := by
  have hv : validateResolution a.resolution =
      .error (.sysExit 1 invalidResolutionMsg) := by
    cases hp : pyInt a.resolution with
    | none => simp [validateResolution, hp]
    | some r => simp [validateResolution, hp, h r hp]
  exact ⟨by simp [Scan.init, hv], by simp [workdirCreated, Scan.init, hv]⟩

/-- Witness for C6 at the non-numeric resolution abc. -/
theorem c6_witness :
    Scan.init ⟨["inbox"], "/home/u"⟩
        ⟨PyVal.str "abc", none, "inbox", none, none, false⟩ =
      .error (.sysExit 1 invalidResolutionMsg) ∧
    workdirCreated ⟨["inbox"], "/home/u"⟩
        ⟨PyVal.str "abc", none, "inbox", none, none, false⟩ = false :=
  c6_invalid_resolution_rejected ⟨["inbox"], "/home/u"⟩
    ⟨PyVal.str "abc", none, "inbox", none, none, false⟩
    (fun r hr => by
      have hn : pyInt (PyVal.str "abc") = none := by decide
      rw [hn] at hr
      exact Option.noConfusion hr)

/-- C7: the claim states that page assembly collects the out*.tif files of
the working directory, sorts them by filename ascending, concatenates them
with the fixed lzw compression into output.tif, and fails fatally when the
tool errors and when zero page files were found. In the source none of
this ever runs: combine_tiffs raises NameError on the unbound START_TIME
(via prefix() in the print of line 190) before the glob, for every
listing. The tiffcp invocation lines 191-193 build would be exactly the
claimed one - sorted ascending operands with lzw and output.tif - and the
lines, were they reached, would fail fatally on a tool error and, via the
tiffcp usage contract (at least one input plus the output operand, so at
least two operands, else a usage error), on zero page files. -/
theorem c7_page_assembly (listing : List String) (exitOf : TiffcpCall → Int)
    (husage : ∀ call : TiffcpCall, call.operands.length < 2 →
      exitOf call ≠ 0) :
    combine_tiffs listing exitOf = .error (.nameError "START_TIME") ∧
    (tiffcpCallOf listing).flags = ["-c", "lzw"] ∧
    (tiffcpCallOf listing).operands =
      sortStrings (listing.filter globOutTif) ++ ["output.tif"] ∧
    List.Pairwise (fun a b => strLe a b = true)
      (sortStrings (listing.filter globOutTif)) ∧
    List.Perm (sortStrings (listing.filter globOutTif))
      (listing.filter globOutTif) ∧
    (exitOf (tiffcpCallOf listing) ≠ 0 →
      combineTiffsIntended listing exitOf =
        .error (.toolError "tiffcp" (exitOf (tiffcpCallOf listing)))) ∧
    (listing.filter globOutTif = [] →
      combineTiffsIntended listing exitOf =
        .error (.toolError "tiffcp" (exitOf (tiffcpCallOf listing)))) := by
  refine ⟨rfl, rfl, rfl, sorted_sortStrings _, perm_sortStrings _, ?_, ?_⟩
  · intro hex
    simp [combineTiffsIntended, hex]
  · intro hempty
    have hops : (tiffcpCallOf listing).operands = ["output.tif"] := by
      simp [tiffcpCallOf, hempty, sortStrings]
    have hex := husage (tiffcpCallOf listing) (by rw [hops]; decide)
    simp [combineTiffsIntended, hex]

/-- Witness for C7: with two page files present the source method still
raises NameError; with an empty working directory the would-be tiffcp
invocation has a single operand and fails under the usage contract; a
listing with two page files and a stray file yields the sorted operand
list. -/
theorem c7_witness :
    combine_tiffs ["out1000.tif", "out1001.tif"]
        (fun call => if call.operands.length < 2 then 1 else 0) =
      .error (.nameError "START_TIME") ∧
    combineTiffsIntended []
        (fun call => if call.operands.length < 2 then 1 else 0) =
      .error (.toolError "tiffcp" 1) ∧
    tiffcpCallOf ["out1001.tif", "out1000.tif", "readme.txt"] =
      { flags := ["-c", "lzw"],
        operands := ["out1000.tif", "out1001.tif", "output.tif"] } := by
  have h := c7_page_assembly ["out1000.tif", "out1001.tif"]
      (fun call => if call.operands.length < 2 then 1 else 0)
      (fun call hc => by simp [hc])
  have h0 := c7_page_assembly []
      (fun call => if call.operands.length < 2 then 1 else 0)
      (fun call hc => by simp [hc])
  exact ⟨h.1, (h0.2.2.2.2.2.2 rfl).trans (by decide), by decide⟩

/-- C8: the claim states that counted acquisition with interactive wait
prompts exactly once after each scanned page except the last (never after
the final page) and that a KeyboardInterrupt during a prompt aborts the
whole run with exit code 1. In the source no prompt ever blocks and no
page is ever scanned: _scan_page raises NameError on the unbound
START_TIME (via prefix() in the print of line 154) before the scanimage
call of page 1, and the prompt expression of line 178 itself evaluates
prefix() - an error the except KeyboardInterrupt of line 179 would not
catch - before input() could block. The loop conditions, were START_TIME
bound, prescribe exactly the claimed behavior: with every prompt
confirmed the trace is enterTrace, holding n - 1 prompts, one for each
page i+2 with i + 1 < n and none after the final page; when the interrupt
arrives at the prompt following page k + 1, the run stops right there
with sys.exit(1) after the Aborting message, having scanned only k + 1 of
the n pages. -/
theorem c8_counted_interactive_prompts (n : Nat) (hn : 1 ≤ n)
    (r : Nat → Resp) (k : Nat) :
    scanPagesRun (some (n : Int)) false r =
      ([], .error (.nameError "START_TIME")) ∧
    scanPagesRunIntended (some (n : Int)) false (fun _ => Resp.enter) =
      (enterTrace (n : Int) 0 n, .ok ()) ∧
    promptCount (enterTrace (n : Int) 0 n) = n - 1 ∧
    (∀ i : Nat, i + 1 < n → Ev.prompted (i + 2) ∈ enterTrace (n : Int) 0 n) ∧
    Ev.prompted (n + 1) ∉ enterTrace (n : Int) 0 n ∧
    (k + 1 < n → (∀ j, j < k → r j = Resp.enter) → r k = Resp.interrupt →
      scanPagesRunIntended (some (n : Int)) false r =
        (promptedPairs 0 (k + 1), .error (.sysExit 1 abortMsg))) := by
  have hz : ¬ ((n : Int) = 0) := by omega
  have htn : ((n : Int)).toNat = n := by simp
  refine ⟨?_, ?_, ?_, ?_, ?_, ?_⟩
  · simp only [scanPagesRun, if_neg hz]
    rw [htn]
    exact scanGo_pos n hn
  · simp only [scanPagesRunIntended, if_neg hz]
    rw [htn]
    exact scanGo_allEnter (n : Int) _ (fun j => rfl) n 0
  · exact promptCount_enterTrace (n : Int) n 0 (by simp)
  · intro i hi
    exact prompted_mem_enterTrace_of (n : Int) n 0 i (Nat.zero_le i)
      (by omega) (by omega)
  · intro hmem
    have := prompted_mem_enterTrace_le (n : Int) n 0 (n + 1) hmem
    omega
  · intro hkn hfirst hk
    simp only [scanPagesRunIntended, if_neg hz]
    rw [htn]
    have := scanGo_interrupt (n : Int) r k hfirst hk (by omega) n 0
      (by simp) (by omega)
    simpa using this

/-- Witness for C8: for three pages the source scan step raises NameError
with no event; the loop conditions, were they reached, give the full
trace with prompts after pages 1 and 2 only, and an interrupt at the
prompt after page 2 aborting with exit code 1 before page 3. -/
theorem c8_witness :
    scanPagesRun (some 3) false (fun _ => Resp.enter) =
      ([], .error (.nameError "START_TIME")) ∧
    scanPagesRunIntended (some 3) false (fun _ => Resp.enter) =
      ([Ev.scanned 0 (some 1), Ev.prompted 2, Ev.scanned 1 (some 1),
        Ev.prompted 3, Ev.scanned 2 (some 1)], .ok ()) ∧
    scanPagesRunIntended (some 3) false
        (fun j => if j = 1 then Resp.interrupt else Resp.enter) =
      ([Ev.scanned 0 (some 1), Ev.prompted 2, Ev.scanned 1 (some 1),
        Ev.prompted 3], .error (.sysExit 1 abortMsg)) := by
  have h := c8_counted_interactive_prompts 3 (by decide)
    (fun j => if j = 1 then Resp.interrupt else Resp.enter) 1
  have hEnter := c8_counted_interactive_prompts 3 (by decide)
    (fun _ => Resp.enter) 1
  refine ⟨hEnter.1, h.2.1.trans (by decide), ?_⟩
  have h6 := h.2.2.2.2.2 (by decide)
    (fun j hj => by
      have hj0 : j = 0 := by omega
      rw [hj0]
      decide)
    rfl
  exact h6.trans (by decide)

/-- C9: the claim states that a missing external tool is detected at the
time of import, before any directory is created, with a message naming the
missing tool and exit code 1. The three try blocks of lines 45-61 run
before the mkdtemp of line 259 and before prepare_directories, and each
prints a message containing the names of the tools its import covers. -/
theorem c9_missing_tool_detected_at_startup :
    ∀ a b c d : Bool, ¬ (a = true ∧ b = true ∧ c = true ∧ d = true) →
      importChecks a b c d = .error (.sysExit 1 (importFailMsg a b c)) ∧
      startupDirsCreated a b c d = 0 ∧
      mentions (importFailMsg a b c) (firstMissingTool a b c) = true := by
  decide

/-- Witness for C9: scanimage absent, every other tool present. -/
theorem c9_witness :
    importChecks false true true true = .error (.sysExit 1 msgSane) ∧
    startupDirsCreated false true true true = 0 ∧
    mentions msgSane "scanimage" = true :=
  c9_missing_tool_detected_at_startup false true true true (by decide)

/-- C10: the claim states that a bare-filename output (no directory
component, not an existing directory) is accepted with no parent check and
stored as an absolute path against the current working directory. The
output-path block of lines 122-127 does exactly that - a bare filename has
empty dirname, so the disjunction short-circuits with no isdir check on
the parent, and the path is joined to the cwd by abspath - but session
construction never stores it: line 113 raises NameError on the unbound
START_TIME first. -/
theorem c10_bare_filename_output (fs : FS) (a : InitArgs) (r : Int)
    (hres : pyInt a.resolution = some r) (hr : r ∈ VALID_RESOLUTIONS)
    (hnotdir : fs.isdir a.output = false) (hbare : dirname a.output = "") :
    resolveOutputPath fs a.output a.name = .ok (abspath fs.cwd a.output) ∧
    (isAbs a.output = false →
      resolveOutputPath fs a.output a.name =
        .ok (fs.cwd ++ "/" ++ a.output)) ∧
    Scan.init fs a = .error (.nameError "START_TIME") := by
  have hres1 : resolveOutputPath fs a.output a.name =
      .ok (abspath fs.cwd a.output) := by
    simp [resolveOutputPath, hnotdir, hbare]
  refine ⟨hres1, ?_, ?_⟩
  · intro habs
    rw [hres1]
    simp [abspath, habs]
  · have hv : validateResolution a.resolution = .ok a.resolution := by
      simp [validateResolution, hres, hr]
    simp [Scan.init, hv]

/-- Witness for C10: the bare filename doc.pdf with cwd /home/u resolves
to /home/u/doc.pdf, while construction still raises NameError. -/
theorem c10_witness :
    resolveOutputPath ⟨["inbox"], "/home/u"⟩ "doc.pdf" none =
      .ok "/home/u/doc.pdf" ∧
    Scan.init ⟨["inbox"], "/home/u"⟩
        ⟨PyVal.str "300", none, "doc.pdf", none, none, false⟩ =
      .error (.nameError "START_TIME") := by
  have h := c10_bare_filename_output ⟨["inbox"], "/home/u"⟩
    ⟨PyVal.str "300", none, "doc.pdf", none, none, false⟩ 300
    (by decide) (by decide) (by decide) (by decide)
  exact ⟨(h.2.1 (by decide)).trans (by decide), h.2.2⟩

end Pydigitize
